import Mathlib

/-!
Verification of the GSync configuration module (`src/config.rs`).

The module manages a single persisted configuration record with four
optional string fields.  Persistence goes through SQLite: `get_config`
reads the singleton row of the `config` table, `write` deletes all rows
and inserts one row holding the record's fields.

The embedding below models the table as a list of rows and each
fallible database primitive (connection acquisition, statement
preparation, query, row fetch, column decoding, delete, insert) by an
explicit success flag, since in SQLite autocommit mode each `execute`
commits independently.
-/

/-- The configuration record (`struct Configuration` in `config.rs`):
four optional string fields. -/
structure Configuration where
  client_id : Option String
  client_secret : Option String
  input_files : Option String
  drive_id : Option String
deriving DecidableEq

/-- The error type: every storage failure surfaces as a database error
(`Error::DatabaseError` with call-site context in the source). -/
inductive GError where
  | DatabaseError : GError
deriving DecidableEq

/-- A row of the `config` table: the four nullable columns. -/
structure Row where
  client_id : Option String
  client_secret : Option String
  input_files : Option String
  drive_id : Option String
deriving DecidableEq

/-- The state of the `config` table: its list of rows. -/
abbrev DbState := List Row

/-- Success flags for each fallible database primitive used by
`get_config` and `write`.  A `false` flag makes the corresponding
primitive fail with a database error. -/
structure DbFailures where
  connOk : Bool
  prepareOk : Bool
  queryOk : Bool
  nextOk : Bool
  decodeOk : Bool
  deleteOk : Bool
  insertOk : Bool
deriving DecidableEq

/-- The schedule on which every database primitive succeeds. -/
def DbFailures.allOk : DbFailures := ⟨true, true, true, true, true, true, true⟩

/-- `Configuration::is_empty`: all four fields are `None`. -/
def Configuration.is_empty (c : Configuration) : Bool :=
  c.input_files.isNone && c.client_id.isNone && c.client_secret.isNone && c.drive_id.isNone

/-- `Configuration::empty`: the record with all four fields `None`. -/
def Configuration.empty : Configuration :=
  { client_id := none
    client_secret := none
    input_files := none
    drive_id := none }

/-- `Configuration::is_complete`: checks `client_id`, then
`client_secret`, then `input_files`; `drive_id` is allowed to be
`None`. -/
def Configuration.is_complete (c : Configuration) : Bool × String :=
  if c.client_id.isNone then
    (false, "'client_id' is empty")
  else if c.client_secret.isNone then
    (false, "'client_secret' is empty")
  else if c.input_files.isNone then
    (false, "'input_files' is empty")
  else
    (true, "")

/-- `Configuration::merge`: starting from the empty record, each field
takes `a`'s value when present and `b`'s value otherwise. -/
def Configuration.merge (a b : Configuration) : Configuration :=
  let output := Configuration.empty
  let output := { output with client_id :=
    match a.client_id with
    | some s => some s
    | none => b.client_id }
  let output := { output with client_secret :=
    match a.client_secret with
    | some s => some s
    | none => b.client_secret }
  let output := { output with input_files :=
    match a.input_files with
    | some s => some s
    | none => b.input_files }
  let output := { output with drive_id :=
    match a.drive_id with
    | some s => some s
    | none => b.drive_id }
  output

/-- `Configuration::get_config`: acquire a connection, prepare and run
`SELECT * FROM config`, fetch the first row.  If a row exists, decode
the four nullable columns into the record; if none exists, return the
empty record.  Each primitive may fail with a database error. -/
def Configuration.get_config (f : DbFailures) (db : DbState) : Except GError Configuration :=
  if !f.connOk then Except.error GError.DatabaseError
  else if !f.prepareOk then Except.error GError.DatabaseError
  else if !f.queryOk then Except.error GError.DatabaseError
  else if !f.nextOk then Except.error GError.DatabaseError
  else
    match db.head? with
    | some row =>
      if !f.decodeOk then Except.error GError.DatabaseError
      else Except.ok ⟨row.client_id, row.client_secret, row.input_files, row.drive_id⟩
    | none => Except.ok Configuration.empty

/-- `Configuration::write`: acquire a connection, execute
`DELETE FROM config`, then execute the `INSERT` of the record's four
fields.  Each `execute` commits independently (autocommit; the source
wraps no transaction around the pair), so a delete that succeeded stays
committed even when the subsequent insert fails.  Returns the call's
result together with the table state it leaves behind. -/
def Configuration.write (c : Configuration) (f : DbFailures) (db : DbState) :
    Except GError Unit × DbState :=
  if !f.connOk then (Except.error GError.DatabaseError, db)
  else if !f.deleteOk then (Except.error GError.DatabaseError, db)
  else
    let db1 : DbState := []
    if !f.insertOk then (Except.error GError.DatabaseError, db1)
    else (Except.ok (), db1 ++ [⟨c.client_id, c.client_secret, c.input_files, c.drive_id⟩])

/-- Two records are field-disjoint when no field is present in both. -/
def Configuration.fieldsDisjoint (a b : Configuration) : Prop :=
  (a.client_id = none ∨ b.client_id = none) ∧
  (a.client_secret = none ∨ b.client_secret = none) ∧
  (a.input_files = none ∨ b.input_files = none) ∧
  (a.drive_id = none ∨ b.drive_id = none)

/-- C4: `is_complete` checks `client_id`, `client_secret`, `input_files`
in that fixed order, short-circuiting at the first absent field, and
returns `(true, "")` exactly when all three are present, regardless of
`drive_id`. -/
theorem is_complete_spec (r : Configuration) :
    (r.is_complete = (false, "'client_id' is empty") ↔ r.client_id = none) ∧
    (r.is_complete = (false, "'client_secret' is empty") ↔
      (r.client_id ≠ none ∧ r.client_secret = none)) ∧
    (r.is_complete = (false, "'input_files' is empty") ↔
      (r.client_id ≠ none ∧ r.client_secret ≠ none ∧ r.input_files = none)) ∧
    (r.is_complete = (true, "") ↔
      (r.client_id ≠ none ∧ r.client_secret ≠ none ∧ r.input_files ≠ none)) := by
  rcases r with ⟨ci, cs, inf, di⟩
  cases ci <;> cases cs <;> cases inf <;>
    simp [Configuration.is_complete]

/-- C5: loading from a store with no configuration row returns the empty
record as a success value, not an error. -/
theorem get_config_empty_store :
    Configuration.get_config DbFailures.allOk [] = Except.ok Configuration.empty := rfl

/-- C7: the empty record is a two-sided identity for `merge`. -/
theorem merge_empty_identity (A B : Configuration) :
    Configuration.merge A Configuration.empty = A ∧
    Configuration.merge Configuration.empty B = B := by
  constructor
  · rcases A with ⟨a1, a2, a3, a4⟩
    cases a1 <;> cases a2 <;> cases a3 <;> cases a4 <;>
      rfl
  · rcases B with ⟨b1, b2, b3, b4⟩
    rfl

/-- C9: `is_empty` is true exactly when all four fields are absent;
`empty()` is empty, and a record with at least one present field is not
empty. -/
theorem is_empty_spec (r : Configuration) :
    (r.is_empty = true ↔
      (r.client_id = none ∧ r.client_secret = none ∧
       r.input_files = none ∧ r.drive_id = none)) ∧
    Configuration.empty.is_empty = true ∧
    ((r.client_id ≠ none ∨ r.client_secret ≠ none ∨
      r.input_files ≠ none ∨ r.drive_id ≠ none) → r.is_empty = false) := by
  rcases r with ⟨ci, cs, inf, di⟩
  cases ci <;> cases cs <;> cases inf <;> cases di <;>
    simp [Configuration.is_empty, Configuration.empty]

/-- Witness for `is_empty_spec` at a record with one field present. -/
theorem is_empty_spec_witness :
    Configuration.is_empty ⟨some "a", none, none, none⟩ = false :=
  (is_empty_spec ⟨some "a", none, none, none⟩).2.2 (Or.inl (by simp))

/-- C3: each field of `merge a b` independently takes `a`'s value when
present and `b`'s value otherwise. -/
theorem merge_fieldwise_precedence (a b : Configuration) :
    ((a.client_id.isSome = true → (Configuration.merge a b).client_id = a.client_id) ∧
     (a.client_id = none → (Configuration.merge a b).client_id = b.client_id)) ∧
    ((a.client_secret.isSome = true → (Configuration.merge a b).client_secret = a.client_secret) ∧
     (a.client_secret = none → (Configuration.merge a b).client_secret = b.client_secret)) ∧
    ((a.input_files.isSome = true → (Configuration.merge a b).input_files = a.input_files) ∧
     (a.input_files = none → (Configuration.merge a b).input_files = b.input_files)) ∧
    ((a.drive_id.isSome = true → (Configuration.merge a b).drive_id = a.drive_id) ∧
     (a.drive_id = none → (Configuration.merge a b).drive_id = b.drive_id)) := by
  rcases a with ⟨a1, a2, a3, a4⟩
  cases a1 <;> cases a2 <;> cases a3 <;> cases a4 <;>
    simp [Configuration.merge]

/-- Witness for `merge_fieldwise_precedence`: both records have
`client_id` present and the primary wins; the primary's absent
`drive_id` falls through to the secondary. -/
theorem merge_fieldwise_precedence_witness :
    (Configuration.merge ⟨some "x", none, none, none⟩ ⟨some "y", none, none, some "d"⟩).client_id
      = some "x" ∧
    (Configuration.merge ⟨some "x", none, none, none⟩ ⟨some "y", none, none, some "d"⟩).drive_id
      = some "d" :=
  ⟨(merge_fieldwise_precedence ⟨some "x", none, none, none⟩ ⟨some "y", none, none, some "d"⟩).1.1
      (by simp),
   (merge_fieldwise_precedence ⟨some "x", none, none, none⟩ ⟨some "y", none, none, some "d"⟩).2.2.2.2
      (by simp)⟩

/-- C8: `merge` is a pure function of its two arguments; it is
commutative whenever the inputs are field-disjoint, and on a field
present in both records the primary's value wins. -/
theorem merge_comm_disjoint_primary_wins (A B : Configuration) :
    (Configuration.fieldsDisjoint A B →
      Configuration.merge A B = Configuration.merge B A) ∧
    (∀ x y, A.client_id = some x → B.client_id = some y →
      (Configuration.merge A B).client_id = some x) ∧
    (∀ x y, A.client_secret = some x → B.client_secret = some y →
      (Configuration.merge A B).client_secret = some x) ∧
    (∀ x y, A.input_files = some x → B.input_files = some y →
      (Configuration.merge A B).input_files = some x) ∧
    (∀ x y, A.drive_id = some x → B.drive_id = some y →
      (Configuration.merge A B).drive_id = some x) := by
  rcases A with ⟨a1, a2, a3, a4⟩
  rcases B with ⟨b1, b2, b3, b4⟩
  refine ⟨?_, ?_, ?_, ?_, ?_⟩
  · rintro ⟨h1, h2, h3, h4⟩
    cases a1 <;> cases b1 <;> cases a2 <;> cases b2 <;>
      cases a3 <;> cases b3 <;> cases a4 <;> cases b4 <;>
      simp_all [Configuration.merge, Configuration.fieldsDisjoint]
  all_goals
    intro x y hx hy
    cases a1 <;> cases a2 <;> cases a3 <;> cases a4 <;>
      simp_all [Configuration.merge]

/-- Witness for `merge_comm_disjoint_primary_wins`: disjoint records
commute, and with `client_id` present in both the primary wins. -/
theorem merge_comm_disjoint_primary_wins_witness :
    Configuration.merge ⟨some "x", none, none, none⟩ ⟨none, some "s", none, none⟩
      = Configuration.merge ⟨none, some "s", none, none⟩ ⟨some "x", none, none, none⟩ ∧
    (Configuration.merge ⟨some "x", none, none, none⟩ ⟨some "y", none, none, none⟩).client_id
      = some "x" :=
  ⟨(merge_comm_disjoint_primary_wins ⟨some "x", none, none, none⟩
      ⟨none, some "s", none, none⟩).1 (by simp [Configuration.fieldsDisjoint]),
   (merge_comm_disjoint_primary_wins ⟨some "x", none, none, none⟩
      ⟨some "y", none, none, none⟩).2.1 "x" "y" rfl rfl⟩

/-- C2: writing a complete record (required fields present, `drive_id`
possibly absent) and loading it back succeeds and yields the record
field by field, absent `drive_id` preserved. -/
theorem write_then_get_roundtrip (r : Configuration) (db : DbState)
    (h1 : r.client_id ≠ none) (h2 : r.client_secret ≠ none)
    (h3 : r.input_files ≠ none) :
    (r.write DbFailures.allOk db).fst = Except.ok () ∧
    Configuration.get_config DbFailures.allOk (r.write DbFailures.allOk db).snd
      = Except.ok r := by
  rcases r with ⟨ci, cs, inf, di⟩
  exact ⟨rfl, rfl⟩

/-- Witness for `write_then_get_roundtrip` at a concrete complete record
with absent `drive_id` and a nonempty prior store. -/
theorem write_then_get_roundtrip_witness :
    (Configuration.client_id ⟨some "a", some "b", some "c", none⟩ ≠ none) ∧
    Configuration.get_config DbFailures.allOk
      (Configuration.write ⟨some "a", some "b", some "c", none⟩ DbFailures.allOk
        [⟨some "old", none, none, none⟩]).snd
      = Except.ok ⟨some "a", some "b", some "c", none⟩ :=
  ⟨by simp,
   (write_then_get_roundtrip ⟨some "a", some "b", some "c", none⟩
      [⟨some "old", none, none, none⟩] (by simp) (by simp) (by simp)).2⟩

/-- C6: every successful `write` leaves exactly one row in the table,
and writing `r1` then `r2` leaves a single row from which only `r2` is
retrievable. -/
theorem write_singleton_invariant (c r1 r2 : Configuration) (f : DbFailures)
    (db db0 : DbState) :
    ((c.write f db).fst = Except.ok () → ((c.write f db).snd).length = 1) ∧
    ((r2.write DbFailures.allOk (r1.write DbFailures.allOk db0).snd).snd).length = 1 ∧
    Configuration.get_config DbFailures.allOk
      (r2.write DbFailures.allOk (r1.write DbFailures.allOk db0).snd).snd
      = Except.ok r2 := by
  refine ⟨?_, rfl, ?_⟩
  · intro h
    rcases f with ⟨fc, fp, fq, fn, fd, fdel, fins⟩
    cases fc <;> cases fdel <;> cases fins <;>
      simp_all [Configuration.write]
  · rcases r2 with ⟨ci, cs, inf, di⟩
    rfl

/-- Witness for `write_singleton_invariant`: a successful write over a
two-row table leaves exactly one row. -/
theorem write_singleton_invariant_witness :
    ((Configuration.write ⟨some "a", none, none, none⟩ DbFailures.allOk
        [⟨none, none, none, none⟩, ⟨some "z", none, none, none⟩]).snd).length = 1 :=
  (write_singleton_invariant ⟨some "a", none, none, none⟩ Configuration.empty
      Configuration.empty DbFailures.allOk
      [⟨none, none, none, none⟩, ⟨some "z", none, none, none⟩] []).1 rfl

/-- C10: writing the empty record leaves a single all-NULL row, a load
then returns `empty()` exactly as from a store that never held a row,
and the write/load round-trip holds for every record, incomplete ones
included. -/
theorem write_empty_roundtrip (r : Configuration) (db : DbState) :
    (Configuration.empty.write DbFailures.allOk db).snd = [⟨none, none, none, none⟩] ∧
    Configuration.get_config DbFailures.allOk
        (Configuration.empty.write DbFailures.allOk db).snd
      = Configuration.get_config DbFailures.allOk [] ∧
    Configuration.get_config DbFailures.allOk
        (Configuration.empty.write DbFailures.allOk db).snd
      = Except.ok Configuration.empty ∧
    Configuration.get_config DbFailures.allOk (r.write DbFailures.allOk db).snd
      = Except.ok r := by
  refine ⟨rfl, rfl, rfl, ?_⟩
  rcases r with ⟨ci, cs, inf, di⟩
  rfl

/-- C1 counterexample: with one row in the table, a write whose insert
fails after the delete succeeded reports an error while the table has
been emptied — the delete took effect without the insert, the persisted
state changed on failure, and the config table is left empty. -/
theorem write_not_atomic_counterexample :
    (Configuration.write ⟨some "a", some "b", some "c", none⟩
        ⟨true, true, true, true, true, true, false⟩
        [⟨some "x", some "y", some "z", none⟩]).fst
      = Except.error GError.DatabaseError ∧
    (Configuration.write ⟨some "a", some "b", some "c", none⟩
        ⟨true, true, true, true, true, true, false⟩
        [⟨some "x", some "y", some "z", none⟩]).snd
      ≠ [⟨some "x", some "y", some "z", none⟩] ∧
    (Configuration.write ⟨some "a", some "b", some "c", none⟩
        ⟨true, true, true, true, true, true, false⟩
        [⟨some "x", some "y", some "z", none⟩]).snd
      = [] := by
  refine ⟨rfl, ?_, rfl⟩
  decide

/-- C1 amended: `write` deletes and inserts without a transaction.  On
full success the table holds exactly the new record; a connection or
delete failure leaves the state unchanged; but when the insert fails
after the delete succeeded, the error is reported with the table
already emptied, so the prior state is lost and there is a window in
which the config table is empty. -/
theorem write_replace_behavior (c : Configuration) (f : DbFailures) (db : DbState) :
    (c.write DbFailures.allOk db
      = (Except.ok (), [⟨c.client_id, c.client_secret, c.input_files, c.drive_id⟩])) ∧
    (f.connOk = false → c.write f db = (Except.error GError.DatabaseError, db)) ∧
    (f.connOk = true → f.deleteOk = false →
      c.write f db = (Except.error GError.DatabaseError, db)) ∧
    (f.connOk = true → f.deleteOk = true → f.insertOk = false →
      c.write f db = (Except.error GError.DatabaseError, [])) := by
  refine ⟨rfl, ?_, ?_, ?_⟩ <;>
    rcases f with ⟨fc, fp, fq, fn, fd, fdel, fins⟩ <;>
    simp_all [Configuration.write]

/-- Witness for `write_replace_behavior`: the insert-failure branch at a
concrete record, schedule and store. -/
theorem write_replace_behavior_witness :
    Configuration.write ⟨some "a", none, none, none⟩
        ⟨true, true, true, true, true, true, false⟩
        [⟨some "x", some "y", some "z", none⟩]
      = (Except.error GError.DatabaseError, []) :=
  (write_replace_behavior ⟨some "a", none, none, none⟩
      ⟨true, true, true, true, true, true, false⟩
      [⟨some "x", some "y", some "z", none⟩]).2.2.2 rfl rfl rfl
